import Mathlib

/-!
# SomaStatus — verification of the check execution and aggregation engine

Shallow embedding of the monitor script (`astro.config.mjs`, the
`#!/usr/bin/env node` health-check script) and of the status helpers in
`src/lib/constants.ts`, together with proofs about the spec's claims.

Conventions of the embedding:
* JavaScript numbers are modelled exactly: integer quantities (counts,
  response times in ms, HTTP status codes) as `Nat`/`Int`, fractional
  arithmetic (`* 0.5`, `* 0.95`, percentage rounding) as `ℚ`.  All the
  float expressions appearing in the script (`t * 0.5`,
  `Math.ceil(n * 0.95)`, `Math.round(x * 100) / 100`) are exact at the
  magnitudes the program manipulates, so the rational model is faithful.
* UTC dates (`YYYY-MM-DD` strings) are modelled as `Int` day numbers;
  lexicographic comparison of ISO date strings coincides with numeric
  comparison of day numbers, and `setUTCDate(getUTCDate() - k)` is
  subtraction of `k`.
* The `data/checks` directory is modelled as an association list from
  day number to file content; a file that exists but does not parse as
  JSON is the `corrupt` constructor.
* JSON response bodies are modelled just finely enough for the single
  observation the script makes of them (`body[field] === value` with a
  string `value`): an optional association list of string keys to
  primitive values, `none` standing for "response.json() threw".
-/

/-- `Status`, the classification of one probe outcome (`src/lib/types.ts`). -/
inductive Status where
  | up
  | degraded
  | down
deriving DecidableEq, Repr

/-- A JSON primitive value as far as `body[field] === value` can observe it:
either a string, or anything that is not a string (never strictly equal to
the configured string `value`). -/
inductive JsonPrim where
  | jstr (s : String)
  | jother
deriving DecidableEq, Repr

/-- A decoded JSON object body: association list from field name to value. -/
abbrev JsonObj := List (String × JsonPrim)

/-- The `validate` rule of a component: compare `body[field]` to `value`
(`src/lib/types.ts`, `ComponentConfig.validate`). -/
structure Validate where
  field : String
  value : String
deriving DecidableEq, Repr

/-- One resolved probe specification, as assembled by `buildChecks`. -/
structure Check where
  id : String
  name : String
  url : String
  timeout : Nat
  validate : Option Validate
  expectedStatusCodes : List Nat
deriving DecidableEq, Repr

/-- The outcome of one `fetch` call as the script can observe it:
either the promise rejected / the abort fired (`failure`, carrying the
elapsed wall time at abandonment), or a response completed with an HTTP
status code, an elapsed time, and a body (`none` when `response.json()`
throws, `some obj` when it yields the object `obj`). -/
inductive FetchOutcome where
  | failure (elapsed : Nat)
  | success (statusCode : Nat) (elapsed : Nat) (body : Option JsonObj)
deriving DecidableEq, Repr

/-- A completed HTTP response carries a genuine HTTP status code
(`100 ≤ code`); Node's `fetch` rejects instead of resolving with a
status-0 response, so a `success` outcome with code `0` is not a possible
probe execution outcome. -/
def validOutcome : FetchOutcome → Prop
  | FetchOutcome.failure _ => True
  | FetchOutcome.success code _ _ => 100 ≤ code

/-- `CheckResult` (`src/lib/types.ts`): status, responseTime (ms), statusCode. -/
structure CheckResult where
  status : Status
  responseTime : Nat
  statusCode : Nat
deriving DecidableEq, Repr

/-- `body[check.validate.field] === check.validate.value` for a decoded body
(`none` = `response.json()` threw, making the surrounding `try` set
`validationPassed = false`). -/
def jsonFieldEq (body : Option JsonObj) (v : Validate) : Bool :=
  match body with
  | none => false
  | some obj =>
    match obj.lookup v.field with
    | some (JsonPrim.jstr s) => s = v.value
    | _ => false

/-- `executeCheck` (monitor script lines 69–111), with the nondeterministic
network interaction factored out into the `FetchOutcome` argument.
Mirrors the script: on rejection, `{down, elapsed, 0}`; on completion,
expected-status membership, optional JSON validation, then the
`responseTime > check.timeout * 0.5` degraded threshold. -/
def executeCheck (check : Check) (o : FetchOutcome) : CheckResult :=
  match o with
  | FetchOutcome.failure elapsed =>
    { status := Status.down, responseTime := elapsed, statusCode := 0 }
  | FetchOutcome.success statusCode elapsed body =>
    let isExpectedStatus := statusCode ∈ check.expectedStatusCodes
    let validationPassed :=
      match check.validate with
      | some v => if isExpectedStatus then jsonFieldEq body v else true
      | none => true
    if ¬isExpectedStatus ∨ validationPassed = false then
      { status := Status.down, responseTime := elapsed, statusCode := statusCode }
    else
      -- `responseTime > check.timeout * 0.5`: 0.5 is exact in binary floating
      -- point, so the comparison is exactly `2 * responseTime > timeout`.
      let degraded := check.timeout < 2 * elapsed
      { status := if degraded then Status.degraded else Status.up,
        responseTime := elapsed, statusCode := statusCode }

/-- A sample check used in concrete evaluations. -/
def checkA : Check :=
  { id := "api", name := "API", url := "https://example.org/health",
    timeout := 10000, validate := none, expectedStatusCodes := [200] }

/-- A sample check with a validation rule expecting field `ok` = "true". -/
def checkV : Check :=
  { id := "api", name := "API", url := "https://example.org/health",
    timeout := 10000,
    validate := some { field := "ok", value := "true" },
    expectedStatusCodes := [200] }

example :
    executeCheck checkA (FetchOutcome.failure 10003) =
      { status := Status.down, responseTime := 10003, statusCode := 0 } := by
  decide

example :
    executeCheck checkA (FetchOutcome.success 200 6000 none) =
      { status := Status.degraded, responseTime := 6000, statusCode := 200 } := by
  decide

example :
    executeCheck checkA (FetchOutcome.success 200 3000 none) =
      { status := Status.up, responseTime := 3000, statusCode := 200 } := by
  decide

example :
    executeCheck checkV
        (FetchOutcome.success 200 50 (some [("ok", JsonPrim.jstr "false")])) =
      { status := Status.down, responseTime := 50, statusCode := 200 } := by
  decide

/-! ## Claims about the check executor -/

/-- C3: for every probe specification and every possible probe execution
outcome (a rejection, or a completed response with a genuine HTTP status
code), if the returned `CheckResult` has `statusCode = 0` then its status
is `down`. -/
theorem executeCheck_statusCode_zero_down (check : Check) (o : FetchOutcome)
    (hvalid : validOutcome o)
    (h0 : (executeCheck check o).statusCode = 0) :
    (executeCheck check o).status = Status.down := by
  cases o with
  | failure elapsed => rfl
  | success code elapsed body =>
    exfalso
    have hcode : (executeCheck check (FetchOutcome.success code elapsed body)).statusCode = code := by
      simp only [executeCheck]
      repeat' first | rfl | split
    rw [hcode] at h0
    simp only [validOutcome] at hvalid
    omega

/-- C3 witness: concrete instance at a transport failure. -/
theorem executeCheck_statusCode_zero_down_witness :
    (executeCheck checkA (FetchOutcome.failure 10003)).status = Status.down :=
  executeCheck_statusCode_zero_down checkA (FetchOutcome.failure 10003)
    trivial (by decide)

/-- `validationPassed` as computed by `executeCheck` on a completed response. -/
def validationPassedOn (check : Check) (statusCode : Nat) (body : Option JsonObj) : Bool :=
  match check.validate with
  | some v => if statusCode ∈ check.expectedStatusCodes then jsonFieldEq body v else true
  | none => true

/-- C6: a response completing with an accepted status code and passing any
configured validation is classified `degraded` exactly when the elapsed
time strictly exceeds 50% of the probe's timeout, and `up` otherwise
(`2 * elapsed > timeout` being the exact form of `elapsed > timeout * 0.5`). -/
theorem executeCheck_latency_classification (check : Check)
    (statusCode elapsed : Nat) (body : Option JsonObj)
    (hcode : statusCode ∈ check.expectedStatusCodes)
    (hval : validationPassedOn check statusCode body = true) :
    executeCheck check (FetchOutcome.success statusCode elapsed body) =
      { status := if check.timeout < 2 * elapsed then Status.degraded else Status.up,
        responseTime := elapsed, statusCode := statusCode } := by
  rcases hvv : check.validate with _ | v <;>
    simp_all [executeCheck, validationPassedOn, hvv, hcode]

/-- C6 witness: probe timeout 10000ms; a 6000ms response with status 200 is
`degraded`, a 3000ms response with status 200 is `up`. -/
theorem executeCheck_latency_classification_witness :
    executeCheck checkA (FetchOutcome.success 200 6000 none) =
        { status := Status.degraded, responseTime := 6000, statusCode := 200 } ∧
      executeCheck checkA (FetchOutcome.success 200 3000 none) =
        { status := Status.up, responseTime := 3000, statusCode := 200 } :=
  ⟨executeCheck_latency_classification checkA 200 6000 none (by decide) (by decide),
   executeCheck_latency_classification checkA 200 3000 none (by decide) (by decide)⟩

/-- C7: with a declared validation rule and an accepted status code, a body
that fails to decode as JSON (`none`) or whose named field is not exactly
the expected string yields status `down` with the original HTTP status code
preserved in the result. -/
theorem executeCheck_validation_failure_down (check : Check) (v : Validate)
    (statusCode elapsed : Nat) (body : Option JsonObj)
    (hv : check.validate = some v)
    (hcode : statusCode ∈ check.expectedStatusCodes)
    (hfail : jsonFieldEq body v = false) :
    executeCheck check (FetchOutcome.success statusCode elapsed body) =
      { status := Status.down, responseTime := elapsed, statusCode := statusCode } := by
  simp_all [executeCheck, hv, hcode, hfail]

/-- C7 witness: status 200 accepted, validation expects field `ok` = "true",
body decodes to `{ "ok": "false" }` → `down` with statusCode 200. -/
theorem executeCheck_validation_failure_down_witness :
    executeCheck checkV
        (FetchOutcome.success 200 50 (some [("ok", JsonPrim.jstr "false")])) =
      { status := Status.down, responseTime := 50, statusCode := 200 } :=
  executeCheck_validation_failure_down checkV { field := "ok", value := "true" }
    200 50 (some [("ok", JsonPrim.jstr "false")]) rfl (by decide) (by decide)

/-! ## Association-list maps (JS object semantics: set replaces in place,
new keys append; lookup finds the unique binding) -/

/-- Lookup in an association list (JS `m[k]`, `undefined` = `none`). -/
def lookupM {κ α : Type} [DecidableEq κ] : List (κ × α) → κ → Option α
  | [], _ => none
  | (k', v) :: rest, k => if k' = k then some v else lookupM rest k

/-- JS object assignment `m[k] = v`: replace the binding in place if the key
is present, append it otherwise. -/
def jsSet {κ α : Type} [DecidableEq κ] : List (κ × α) → κ → α → List (κ × α)
  | [], k, v => [(k, v)]
  | (k', v') :: rest, k, v =>
    if k' = k then (k, v) :: rest else (k', v') :: jsSet rest k v

theorem lookupM_jsSet_same {κ α : Type} [DecidableEq κ]
    (m : List (κ × α)) (k : κ) (v : α) : lookupM (jsSet m k v) k = some v := by
  induction m with
  | nil => simp [jsSet, lookupM]
  | cons p rest ih =>
    obtain ⟨k', v'⟩ := p
    by_cases h : k' = k <;> simp [jsSet, lookupM, h, ih]

theorem lookupM_jsSet_other {κ α : Type} [DecidableEq κ]
    (m : List (κ × α)) (k k₀ : κ) (v : α) (hne : k₀ ≠ k) :
    lookupM (jsSet m k v) k₀ = lookupM m k₀ := by
  induction m with
  | nil => simp [jsSet, lookupM, Ne.symm hne]
  | cons p rest ih =>
    obtain ⟨k', v'⟩ := p
    by_cases h : k' = k
    · subst h
      simp [jsSet, lookupM, Ne.symm hne]
    · simp [jsSet, lookupM, h, ih]

theorem mem_jsSet {κ α : Type} [DecidableEq κ]
    (m : List (κ × α)) (k : κ) (v : α) (p : κ × α) (hp : p ∈ jsSet m k v) :
    p = (k, v) ∨ p ∈ m := by
  induction m with
  | nil => simpa [jsSet] using hp
  | cons q rest ih =>
    obtain ⟨k', v'⟩ := q
    by_cases h : k' = k
    · simp only [jsSet, if_pos h] at hp
      rcases List.mem_cons.mp hp with h1 | h1
      · exact Or.inl h1
      · exact Or.inr (List.mem_cons_of_mem _ h1)
    · simp only [jsSet, if_neg h] at hp
      rcases List.mem_cons.mp hp with h1 | h1
      · exact Or.inr (h1 ▸ List.mem_cons_self _ _)
      · rcases ih h1 with h2 | h2
        · exact Or.inl h2
        · exact Or.inr (List.mem_cons_of_mem _ h2)

/-! ## Configuration and probe resolution (`buildChecks`) -/

/-- `ComponentConfig` (`src/lib/types.ts`): a component of a group.
`endpoint`, `url`, `params`, `validate`, `expectedStatusCodes` are optional;
`timeout` is optional at the call site (`comp.timeout || 10000`). -/
structure ComponentConfig where
  id : String
  name : String
  endpoint : Option String
  url : Option String
  params : Option Bool
  timeout : Option Nat
  validate : Option Validate
  expectedStatusCodes : Option (List Nat)
deriving DecidableEq, Repr

/-- `GroupConfig` (`src/lib/types.ts`). -/
structure GroupConfig where
  id : String
  name : String
  description : String
  components : List ComponentConfig
deriving DecidableEq, Repr

/-- `ExternalConfig` (`src/lib/types.ts`). -/
structure ExternalConfig where
  id : String
  name : String
  url : String
  timeout : Option Nat
deriving DecidableEq, Repr

/-- `Config` (`src/lib/types.ts`); `testLat`/`testLon` are carried as their
JS string renderings since the script only interpolates them into URLs. -/
structure Config where
  baseUrl : String
  testLat : String
  testLon : String
  groups : List GroupConfig
  external : List ExternalConfig
deriving DecidableEq, Repr

/-- JS truthiness of an optional string (`undefined` and `""` are falsy). -/
def jsTruthyStr : Option String → Bool
  | none => false
  | some s => !(s == "")

/-- JS `x || d` for an optional number (`undefined` and `0` are falsy). -/
def jsOrDefault (x : Option Nat) (d : Nat) : Nat :=
  match x with
  | none => d
  | some n => if n = 0 then d else n

/-- `buildChecks` (monitor script lines 31–66): flatten every group's
components and then the external dependencies into one ordered probe list.
No validation of any kind is performed; in particular ids are not checked
for uniqueness. -/
def buildChecks (config : Config) : List Check :=
  (config.groups.flatMap fun group =>
    group.components.map fun comp =>
      let url :=
        if jsTruthyStr comp.url then comp.url.getD "" else
          let params :=
            if comp.params = some true then
              "?lat=" ++ config.testLat ++ "&lon=" ++ config.testLon
            else ""
          config.baseUrl ++ comp.endpoint.getD "undefined" ++ params
      { id := comp.id, name := comp.name, url := url,
        timeout := jsOrDefault comp.timeout 10000,
        validate := comp.validate,
        expectedStatusCodes := comp.expectedStatusCodes.getD [200] }) ++
  config.external.map fun ext =>
    { id := ext.id, name := ext.name, url := ext.url,
      timeout := jsOrDefault ext.timeout 10000,
      validate := none,
      expectedStatusCodes := [200] }

/-- A configuration whose two components share the id `"svc"`. -/
def dupConfig : Config :=
  { baseUrl := "https://api.example.org",
    testLat := "35", testLon := "33",
    groups := [{ id := "g", name := "Group", description := "",
                 components :=
                   [{ id := "svc", name := "Service A", endpoint := some "/a",
                      url := none, params := none, timeout := some 5000,
                      validate := none, expectedStatusCodes := none },
                    { id := "svc", name := "Service B", endpoint := some "/b",
                      url := none, params := none, timeout := some 5000,
                      validate := none, expectedStatusCodes := none }] }],
    external := [] }

/-- C2 counterexample: on a configuration with a duplicated probe id,
`buildChecks` surfaces no configuration error — it returns the full
two-element probe list, both entries carrying the id `"svc"`. -/
theorem buildChecks_duplicate_id_not_rejected :
    (buildChecks dupConfig).map Check.id = ["svc", "svc"] := by
  decide

/-- C2 amended: probe resolution performs no uniqueness validation at all —
for every configuration, duplicated ids included, the resolved probe list
carries exactly the ids of the flattened components followed by the
external dependencies, one probe per declaration, and no error is possible
(`buildChecks` is total with no error outcome). -/
theorem buildChecks_ids_pass_through (config : Config) :
    (buildChecks config).map Check.id =
      (config.groups.flatMap fun group => group.components.map ComponentConfig.id) ++
        config.external.map ExternalConfig.id := by
  simp [buildChecks, List.map_flatMap, List.map_map, Function.comp_def]

/-! ## Daily records and the Daily Aggregator (`updateDailyFile`) -/

/-- `DaySummary` (`src/lib/types.ts`): per-probe running statistics for one
UTC day.  `uptimePercent` is a JS float carrying two-decimal percentages,
modelled exactly as `ℚ`; `avgResponseTime` is `Math.round` of a mean, an
integer. -/
structure DaySummary where
  totalChecks : Nat
  upChecks : Nat
  degradedChecks : Nat
  downChecks : Nat
  uptimePercent : ℚ
  avgResponseTime : ℤ
  p95ResponseTime : Nat
deriving DecidableEq, Repr

/-- `CheckEntry` (`src/lib/types.ts`): one run's timestamp and per-probe
results (a JS object, keys unique). -/
structure CheckEntry where
  timestamp : String
  results : List (String × CheckResult)
deriving DecidableEq, Repr

/-- `DailyCheckFile` (`src/lib/types.ts`): the per-day durable record.
The `YYYY-MM-DD` date string is modelled as an `Int` day number. -/
structure DailyFile where
  date : Int
  checks : List CheckEntry
  summary : List (String × DaySummary)
deriving DecidableEq, Repr

/-- JS `Math.round`: round half toward positive infinity, `⌊x + 1/2⌋`. -/
def jsRound (q : ℚ) : ℤ := ⌊q + 1/2⌋

/-- `Math.round(x * 100) / 100`: round to two decimals. -/
def round2 (q : ℚ) : ℚ := (jsRound (q * 100) : ℚ) / 100

/-- The lazily-initialized summary (monitor script lines 150–160). -/
def initialSummary : DaySummary :=
  { totalChecks := 0, upChecks := 0, degradedChecks := 0, downChecks := 0,
    uptimePercent := 100, avgResponseTime := 0, p95ResponseTime := 0 }

/-- `dailyFile.checks.map(c => c.results[id]?.responseTime).filter(t => t != null && t > 0)`:
all response times recorded today for `id` that are present and strictly
positive. -/
def positiveSamples (checks : List CheckEntry) (id : String) : List Nat :=
  ((checks.map fun c => (lookupM c.results id).map CheckResult.responseTime).reduceOption).filter
    fun t => 0 < t

/-- The body of the per-id summary update loop (monitor script lines
162–185): bump the counters, recompute `uptimePercent`, and — when today
has at least one positive sample for this id — recompute the average and
the 95th percentile from all of today's entries (`checks` already includes
the entry being appended). -/
def updateSummary (checks : List CheckEntry) (id : String) (result : CheckResult)
    (s : DaySummary) : DaySummary :=
  let s1 :=
    match result.status with
    | Status.up => { s with totalChecks := s.totalChecks + 1, upChecks := s.upChecks + 1 }
    | Status.degraded =>
      { s with totalChecks := s.totalChecks + 1, degradedChecks := s.degradedChecks + 1 }
    | Status.down =>
      { s with totalChecks := s.totalChecks + 1, downChecks := s.downChecks + 1 }
  let s2 := { s1 with
    uptimePercent := round2 ((((s1.upChecks : ℚ) + (s1.degradedChecks : ℚ)) / (s1.totalChecks : ℚ)) * 100) }
  let allResponseTimes := positiveSamples checks id
  if 0 < allResponseTimes.length then
    -- `sort((a, b) => a - b)`: ascending numeric sort; on a list of naturals
    -- the sorted arrangement is unique, `insertionSort (· ≤ ·)` produces it.
    let sorted := allResponseTimes.insertionSort (· ≤ ·)
    let p95Index : ℤ := ⌈(sorted.length : ℚ) * (0.95 : ℚ)⌉ - 1
    { s2 with
      avgResponseTime := jsRound ((allResponseTimes.sum : ℚ) / (allResponseTimes.length : ℚ)),
      p95ResponseTime := sorted.getD (max 0 p95Index).toNat 0 }
  else s2

/-- The `for (const [id, result] of Object.entries(checkEntry.results))`
loop (monitor script lines 149–186): for each id, lazily initialize its
summary (`if (!dailyFile.summary[id])`) and update it in the summary map. -/
def foldSummaries (checks : List CheckEntry) (results : List (String × CheckResult))
    (summary : List (String × DaySummary)) : List (String × DaySummary) :=
  results.foldl
    (fun summary idResult =>
      let s0 := (lookupM summary idResult.1).getD initialSummary
      jsSet summary idResult.1 (updateSummary checks idResult.1 idResult.2 s0))
    summary

/-- The pure core of `updateDailyFile` (monitor script lines 145–186):
append the entry to the day's sequence, then fold the per-id summary
update over the entry's results (against the appended sequence). -/
def applyEntry (dailyFile : DailyFile) (checkEntry : CheckEntry) : DailyFile :=
  let dailyFile := { dailyFile with checks := dailyFile.checks ++ [checkEntry] }
  { dailyFile with
    summary := foldSummaries dailyFile.checks checkEntry.results dailyFile.summary }

/-- Content of one file in `data/checks`: either a well-formed daily record
or bytes that `JSON.parse` rejects. -/
inductive FileData where
  | corrupt
  | good (f : DailyFile)
deriving DecidableEq, Repr

/-- The `data/checks` directory: one file per day number. -/
abbrev Storage := List (Int × FileData)

/-- `updateDailyFile` (monitor script lines 134–190) acting on the checks
directory.  `existsSync` then `JSON.parse(readFileSync(...))` with no
`try`/`catch`: a corrupt existing file makes `JSON.parse` throw, which
propagates out of `updateDailyFile` (modelled as `Except.error ()`); only
a *missing* file leads to the fresh `{ date, checks: [], summary: {} }`
record. -/
def updateDailyFile (today : Int) (checkEntry : CheckEntry) (st : Storage) :
    Except Unit Storage :=
  match lookupM st today with
  | some FileData.corrupt => Except.error ()
  | some (FileData.good dailyFile) =>
    Except.ok (jsSet st today (FileData.good (applyEntry dailyFile checkEntry)))
  | none =>
    Except.ok (jsSet st today (FileData.good
      (applyEntry { date := today, checks := [], summary := [] } checkEntry)))

/-- `cleanupOldData` (monitor script lines 193–227): delete every file whose
date is strictly before `today - 90`; then, if yesterday's file parses and
still has a non-empty `checks` array, rewrite it with `checks := []`
(keeping the summary).  A parse error on yesterday's file is swallowed
(`catch { /* ignore */ }`). -/
def cleanupOldData (today : Int) (st : Storage) : Storage :=
  let files := st.filter fun p => !decide (p.1 < today - 90)
  let yesterday := today - 1
  match lookupM files yesterday with
  | some (FileData.good data) =>
    if 0 < data.checks.length then
      jsSet files yesterday (FileData.good { data with checks := [] })
    else files
  | _ => files

/-! ## Spec-side statistics definitions (for the refinement claim C4) -/

/-- Modelled from the spec's words (§4.3): "Average is the arithmetic mean,
rounded to nearest integer millisecond." -/
def specMeanResponse (samples : List Nat) : ℤ :=
  jsRound ((samples.sum : ℚ) / (samples.length : ℚ))

/-- Modelled from the spec's words (§4.3): "sorting the collected samples
ascending and selecting the element at index `ceil(0.95 * n) - 1`
(clamped to 0)". -/
def specP95Response (samples : List Nat) : Nat :=
  let sorted := samples.insertionSort (· ≤ ·)
  sorted.getD (max 0 (⌈(0.95 : ℚ) * (samples.length : ℚ)⌉ - 1)).toNat 0

/-! ## Claim C1: behavior on a corrupt daily record file -/

/-- A concrete one-probe check entry. -/
def entryUp : CheckEntry :=
  { timestamp := "2025-10-11T12:00:00.000Z",
    results := [("api", { status := Status.up, responseTime := 120, statusCode := 200 })] }

/-- A checks directory whose file for day 20000 exists but is corrupt. -/
def corruptStore : Storage := [(20000, FileData.corrupt)]

/-- C1 counterexample: with today's record file present but corrupt, the
aggregator does not recover and does not create a fresh record — the
`JSON.parse` exception propagates and the run fails. -/
theorem updateDailyFile_corrupt_counterexample :
    updateDailyFile 20000 entryUp corruptStore = Except.error () := rfl

/-- C1 amended: a corrupt existing daily record file makes the aggregator
fail the run (the parse error propagates; nothing is persisted); a fresh
record containing the new entry is created only when no file exists for
the day. -/
theorem updateDailyFile_corrupt_behavior (today : Int) (e : CheckEntry) (st : Storage) :
    (lookupM st today = some FileData.corrupt →
      updateDailyFile today e st = Except.error ()) ∧
    (lookupM st today = none →
      updateDailyFile today e st =
        Except.ok (jsSet st today (FileData.good
          (applyEntry { date := today, checks := [], summary := [] } e)))) := by
  constructor <;> intro h <;> simp [updateDailyFile, h]

/-- C1 amended, witness: both branches at concrete inputs. -/
theorem updateDailyFile_corrupt_behavior_witness :
    (updateDailyFile 20000 entryUp corruptStore = Except.error ()) ∧
    (updateDailyFile 20000 entryUp [] =
      Except.ok (jsSet [] 20000 (FileData.good
        (applyEntry { date := 20000, checks := [], summary := [] } entryUp)))) :=
  ⟨(updateDailyFile_corrupt_behavior 20000 entryUp corruptStore).1 rfl,
   (updateDailyFile_corrupt_behavior 20000 entryUp []).2 rfl⟩

/-! ## Aggregator plumbing lemmas -/

theorem foldSummaries_nil (checks : List CheckEntry) (m : List (String × DaySummary)) :
    foldSummaries checks [] m = m := rfl

theorem foldSummaries_cons (checks : List CheckEntry) (id : String) (r : CheckResult)
    (rest : List (String × CheckResult)) (m : List (String × DaySummary)) :
    foldSummaries checks ((id, r) :: rest) m =
      foldSummaries checks rest
        (jsSet m id (updateSummary checks id r ((lookupM m id).getD initialSummary))) := rfl

theorem foldSummaries_lookup_not_mem (checks : List CheckEntry)
    (results : List (String × CheckResult)) (m : List (String × DaySummary)) (id : String)
    (h : id ∉ results.map Prod.fst) :
    lookupM (foldSummaries checks results m) id = lookupM m id := by
  induction results generalizing m with
  | nil => rfl
  | cons p rest ih =>
    obtain ⟨id₀, r₀⟩ := p
    simp only [List.map_cons, List.mem_cons, not_or] at h
    rw [foldSummaries_cons, ih _ h.2, lookupM_jsSet_other _ _ _ _ h.1]

theorem foldSummaries_lookup (checks : List CheckEntry)
    (results : List (String × CheckResult)) (m : List (String × DaySummary))
    (id : String) (r : CheckResult)
    (hnodup : (results.map Prod.fst).Nodup) (hmem : (id, r) ∈ results) :
    lookupM (foldSummaries checks results m) id =
      some (updateSummary checks id r ((lookupM m id).getD initialSummary)) := by
  induction results generalizing m with
  | nil => cases hmem
  | cons p rest ih =>
    obtain ⟨id₀, r₀⟩ := p
    simp only [List.map_cons, List.nodup_cons] at hnodup
    rw [foldSummaries_cons]
    rcases List.mem_cons.mp hmem with heq | hmemr
    · obtain ⟨rfl, rfl⟩ := Prod.mk.inj heq
      rw [foldSummaries_lookup_not_mem _ _ _ _ hnodup.1, lookupM_jsSet_same]
    · have hne : id ≠ id₀ := by
        rintro rfl
        exact hnodup.1 (List.mem_map.mpr ⟨(id, r), hmemr, rfl⟩)
      rw [ih _ hnodup.2 hmemr, lookupM_jsSet_other _ _ _ _ hne]

theorem applyEntry_checks (f : DailyFile) (e : CheckEntry) :
    (applyEntry f e).checks = f.checks ++ [e] := rfl

theorem applyEntry_summary (f : DailyFile) (e : CheckEntry) :
    (applyEntry f e).summary = foldSummaries (f.checks ++ [e]) e.results f.summary := rfl

/-! ## The DaySummary invariant (claim C5) -/

theorem specP95_code_form (samples : List Nat) :
    (samples.insertionSort (· ≤ ·)).getD
        (max 0 (⌈((samples.insertionSort (· ≤ ·)).length : ℚ) * (0.95 : ℚ)⌉ - 1)).toNat 0 =
      specP95Response samples := by
  unfold specP95Response
  rw [List.length_insertionSort, mul_comm]

theorem updateSummary_latency (checks : List CheckEntry) (id : String)
    (result : CheckResult) (s : DaySummary) :
    (positiveSamples checks id ≠ [] →
      (updateSummary checks id result s).avgResponseTime =
          specMeanResponse (positiveSamples checks id) ∧
        (updateSummary checks id result s).p95ResponseTime =
          specP95Response (positiveSamples checks id)) ∧
    (positiveSamples checks id = [] →
      (updateSummary checks id result s).avgResponseTime = s.avgResponseTime ∧
        (updateSummary checks id result s).p95ResponseTime = s.p95ResponseTime) := by
  constructor <;> intro h
  · have hlen : 0 < (positiveSamples checks id).length := List.length_pos.mpr h
    unfold updateSummary
    cases result.status <;> dsimp <;> rw [if_pos hlen] <;>
      exact ⟨rfl, specP95_code_form _⟩
  · have hlen : ¬0 < (positiveSamples checks id).length := by simp [h]
    unfold updateSummary
    cases result.status <;> dsimp <;> rw [if_neg hlen] <;> exact ⟨rfl, rfl⟩

/-- C4: after an aggregator update, for every probe id in the entry the
summary's `avgResponseTime` is the rounded arithmetic mean of today's
present-and-positive samples for that id, `p95ResponseTime` is the element
at index `ceil(0.95 * n) - 1` (clamped to 0) of those samples sorted
ascending, and when no positive samples exist both latency fields keep
their previous values; in particular samples `[100, 120, 110, 500, 105]`
give p95 = 500. -/
theorem applyEntry_latency_stats (f : DailyFile) (e : CheckEntry)
    (id : String) (r : CheckResult)
    (hnodup : (e.results.map Prod.fst).Nodup) (hmem : (id, r) ∈ e.results) :
    (∃ s, lookupM (applyEntry f e).summary id = some s ∧
      (positiveSamples (f.checks ++ [e]) id ≠ [] →
        s.avgResponseTime = specMeanResponse (positiveSamples (f.checks ++ [e]) id) ∧
        s.p95ResponseTime = specP95Response (positiveSamples (f.checks ++ [e]) id)) ∧
      (positiveSamples (f.checks ++ [e]) id = [] →
        s.avgResponseTime = ((lookupM f.summary id).getD initialSummary).avgResponseTime ∧
        s.p95ResponseTime = ((lookupM f.summary id).getD initialSummary).p95ResponseTime)) ∧
    specP95Response [100, 120, 110, 500, 105] = 500 := by
  constructor
  · refine ⟨updateSummary (f.checks ++ [e]) id r ((lookupM f.summary id).getD initialSummary),
      ?_, ?_, ?_⟩
    · rw [applyEntry_summary]
      exact foldSummaries_lookup _ _ _ _ _ hnodup hmem
    · exact (updateSummary_latency _ _ _ _).1
    · exact (updateSummary_latency _ _ _ _).2
  · unfold specP95Response
    rw [show ((([100, 120, 110, 500, 105] : List Nat).length : ℚ)) = 5 by norm_num]
    rw [show ⌈(0.95 : ℚ) * (5 : ℚ)⌉ = 5 from by rw [Int.ceil_eq_iff]; norm_num]
    decide

/-- One-probe entry constructor for concrete scenarios. -/
def entryOf (ts : String) (st : Status) (rt : Nat) (code : Nat) : CheckEntry :=
  { timestamp := ts, results := [("api", { status := st, responseTime := rt, statusCode := code })] }

/-- A day with positive samples 100, 120, 110, 500 for probe `"api"` plus one
timeout sample of 0 ms (excluded from latency statistics). -/
def scenarioFile : DailyFile :=
  { date := 20000,
    checks := [entryOf "t1" Status.up 100 200, entryOf "t2" Status.up 120 200,
               entryOf "t3" Status.up 110 200, entryOf "t4" Status.degraded 500 200,
               entryOf "t5" Status.down 0 0],
    summary := [] }

/-- The sixth run of the day: 105 ms. -/
def entry105 : CheckEntry := entryOf "t6" Status.up 105 200

example : positiveSamples (scenarioFile.checks ++ [entry105]) "api" =
    [100, 120, 110, 500, 105] := by decide

/-- C4 witness: the statistics theorem applied to the spec's p95 scenario
(today's positive samples `[100, 120, 110, 500, 105]`). -/
theorem applyEntry_latency_stats_witness :
    (∃ s, lookupM (applyEntry scenarioFile entry105).summary "api" = some s ∧
      (positiveSamples (scenarioFile.checks ++ [entry105]) "api" ≠ [] →
        s.avgResponseTime =
            specMeanResponse (positiveSamples (scenarioFile.checks ++ [entry105]) "api") ∧
          s.p95ResponseTime =
            specP95Response (positiveSamples (scenarioFile.checks ++ [entry105]) "api")) ∧
      (positiveSamples (scenarioFile.checks ++ [entry105]) "api" = [] →
        s.avgResponseTime = ((lookupM scenarioFile.summary "api").getD initialSummary).avgResponseTime ∧
          s.p95ResponseTime = ((lookupM scenarioFile.summary "api").getD initialSummary).p95ResponseTime)) ∧
    specP95Response [100, 120, 110, 500, 105] = 500 :=
  applyEntry_latency_stats scenarioFile entry105 "api"
    { status := Status.up, responseTime := 105, statusCode := 200 } (by decide) (by decide)

/-! ## Retention Manager (claims C8, C9) -/

theorem lookupM_filter_none {κ α : Type} [DecidableEq κ] (P : κ × α → Bool)
    (m : List (κ × α)) (k : κ) (h : ∀ v, P (k, v) = false) :
    lookupM (m.filter P) k = none := by
  induction m with
  | nil => rfl
  | cons p rest ih =>
    obtain ⟨k', v'⟩ := p
    by_cases hk : k' = k
    · subst hk
      simp [List.filter_cons, h v', ih]
    · cases hP : P (k', v') <;> simp [List.filter_cons, hP, lookupM, hk, ih]

theorem lookupM_filter_pos {κ α : Type} [DecidableEq κ] (P : κ × α → Bool)
    (m : List (κ × α)) (k : κ) (h : ∀ v, P (k, v) = true) :
    lookupM (m.filter P) k = lookupM m k := by
  induction m with
  | nil => rfl
  | cons p rest ih =>
    obtain ⟨k', v'⟩ := p
    by_cases hk : k' = k
    · subst hk
      simp [List.filter_cons, h v', lookupM, ih]
    · cases hP : P (k', v') <;> simp [List.filter_cons, hP, lookupM, hk, ih]

theorem dailyFile_checks_nil (f : DailyFile) (h : f.checks = []) :
    { f with checks := [] } = f := by
  cases f
  simp_all

/-- `cleanupOldData` with its lets unfolded, for case analysis. -/
theorem cleanupOldData_eq (today : Int) (st : Storage) :
    cleanupOldData today st =
      match lookupM (st.filter fun p => !decide (p.1 < today - 90)) (today - 1) with
      | some (FileData.good data) =>
        if 0 < data.checks.length then
          jsSet (st.filter fun p => !decide (p.1 < today - 90)) (today - 1)
            (FileData.good { data with checks := [] })
        else st.filter fun p => !decide (p.1 < today - 90)
      | _ => st.filter fun p => !decide (p.1 < today - 90) := rfl

/-- C8: one Retention Manager invocation deletes every record dated strictly
before `today - 90` (so a record 91 days old is deleted), leaves the record
dated exactly `today - 90` as it was, and replaces yesterday's record by the
same record with its entry sequence cleared (its per-probe summary field
untouched). -/
theorem cleanupOldData_retention (st : Storage) (today : Int) :
    (∀ d, d < today - 90 → lookupM (cleanupOldData today st) d = none) ∧
    (lookupM (cleanupOldData today st) (today - 90) = lookupM st (today - 90)) ∧
    (∀ f, lookupM st (today - 1) = some (FileData.good f) →
      lookupM (cleanupOldData today st) (today - 1) =
        some (FileData.good { f with checks := [] })) := by
  have hPfalse : ∀ d, d < today - 90 →
      ∀ v : FileData, (!decide ((d, v).1 < today - 90)) = false := by
    intro d hd v
    simp [hd]
  have hPy : ∀ v : FileData, (!decide (((today - 1 : Int), v).1 < today - 90)) = true := by
    intro v
    have h : ¬((today - 1 : Int) < today - 90) := by omega
    simp [h]
  have hP90 : ∀ v : FileData, (!decide (((today - 90 : Int), v).1 < today - 90)) = true := by
    intro v
    simp
  rw [cleanupOldData_eq]
  cases hY : lookupM (st.filter fun p => !decide (p.1 < today - 90)) (today - 1) with
  | none =>
    refine ⟨fun d hd => lookupM_filter_none _ _ _ (hPfalse d hd),
      lookupM_filter_pos _ _ _ hP90, fun f hf => ?_⟩
    rw [lookupM_filter_pos _ _ _ hPy, hf] at hY
    cases hY
  | some fd =>
    cases fd with
    | corrupt =>
      refine ⟨fun d hd => lookupM_filter_none _ _ _ (hPfalse d hd),
        lookupM_filter_pos _ _ _ hP90, fun f hf => ?_⟩
      rw [lookupM_filter_pos _ _ _ hPy, hf] at hY
      cases hY
    | good data =>
      dsimp only
      by_cases hc : 0 < data.checks.length
      · rw [if_pos hc]
        refine ⟨fun d hd => ?_, ?_, fun f hf => ?_⟩
        · rw [lookupM_jsSet_other _ _ _ _ (by omega : d ≠ today - 1)]
          exact lookupM_filter_none _ _ _ (hPfalse d hd)
        · rw [lookupM_jsSet_other _ _ _ _ (by omega : today - 90 ≠ today - 1)]
          exact lookupM_filter_pos _ _ _ hP90
        · rw [lookupM_filter_pos _ _ _ hPy, hf] at hY
          obtain rfl : data = f := by
            injection hY with h1
            injection h1 with h2
            exact h2.symm
          rw [lookupM_jsSet_same]
      · rw [if_neg hc]
        refine ⟨fun d hd => lookupM_filter_none _ _ _ (hPfalse d hd),
          lookupM_filter_pos _ _ _ hP90, fun f hf => ?_⟩
        rw [lookupM_filter_pos _ _ _ hPy, hf] at hY
        obtain rfl : data = f := by
          injection hY with h1
          injection h1 with h2
          exact h2.symm
        rw [lookupM_filter_pos _ _ _ hPy, hf,
          dailyFile_checks_nil data (by simpa using hc)]

/-- Yesterday's record in the retention scenario: one entry, summary kept. -/
def yFile : DailyFile := { date := 19999, checks := [entryUp], summary := [] }

/-- A checks directory holding records dated 91 days ago, 90 days ago, and
yesterday (relative to day 20000). -/
def retentionStore : Storage :=
  [(19909, FileData.good { date := 19909, checks := [], summary := [] }),
   (19910, FileData.good { date := 19910, checks := [], summary := [] }),
   (19999, FileData.good yFile)]

/-- C8 witness: with today = 20000, day 19909 (91 days old) is deleted, day
19910 (exactly 90 days old) is untouched, and yesterday's record keeps its
summary with its `checks` cleared. -/
theorem cleanupOldData_retention_witness :
    lookupM (cleanupOldData 20000 retentionStore) 19909 = none ∧
    lookupM (cleanupOldData 20000 retentionStore) (20000 - 90) =
      lookupM retentionStore (20000 - 90) ∧
    lookupM (cleanupOldData 20000 retentionStore) (20000 - 1) =
      some (FileData.good { yFile with checks := [] }) :=
  ⟨(cleanupOldData_retention retentionStore 20000).1 19909 (by decide),
   (cleanupOldData_retention retentionStore 20000).2.1,
   (cleanupOldData_retention retentionStore 20000).2.2 yFile rfl⟩

/-- If every stored file is within the retention window and yesterday's
record (when well-formed) already has no raw entries, `cleanupOldData` is
the identity. -/
theorem cleanup_noop (today : Int) (st : Storage)
    (hall : ∀ q ∈ st, (!decide (q.1 < today - 90)) = true)
    (hy : ∀ f, lookupM st (today - 1) = some (FileData.good f) → f.checks = []) :
    cleanupOldData today st = st := by
  rw [cleanupOldData_eq, List.filter_eq_self.mpr hall]
  cases hY : lookupM st (today - 1) with
  | none => rfl
  | some fd =>
    cases fd with
    | corrupt => rfl
    | good f =>
      dsimp only
      rw [if_neg (by simp [hy f hY])]

/-- C9: the Retention Manager is idempotent — a second consecutive
invocation on the resulting state changes nothing. -/
theorem cleanupOldData_idempotent (today : Int) (st : Storage) :
    cleanupOldData today (cleanupOldData today st) = cleanupOldData today st := by
  have hofmem : ∀ q : Int × FileData,
      q ∈ List.filter (fun p => !decide (p.1 < today - 90)) st →
      (!decide (q.1 < today - 90)) = true := by
    intro q hq
    simpa using List.of_mem_filter hq
  apply cleanup_noop
  · intro q hq
    rw [cleanupOldData_eq] at hq
    cases hY : lookupM (st.filter fun p => !decide (p.1 < today - 90)) (today - 1) with
    | none =>
      rw [hY] at hq
      dsimp only at hq
      exact hofmem q hq
    | some fd =>
      cases fd with
      | corrupt =>
        rw [hY] at hq
        dsimp only at hq
        exact hofmem q hq
      | good data =>
        rw [hY] at hq
        dsimp only at hq
        by_cases hlen : 0 < data.checks.length
        · rw [if_pos hlen] at hq
          rcases mem_jsSet _ _ _ _ hq with hqe | hqm
          · subst hqe
            have h : ¬((today - 1 : Int) < today - 90) := by omega
            simp [h]
          · exact hofmem q hqm
        · rw [if_neg hlen] at hq
          exact hofmem q hq
  · intro f hf
    rw [cleanupOldData_eq] at hf
    cases hY : lookupM (st.filter fun p => !decide (p.1 < today - 90)) (today - 1) with
    | none =>
      rw [hY] at hf
      dsimp only at hf
      rw [hY] at hf
      cases hf
    | some fd =>
      cases fd with
      | corrupt =>
        rw [hY] at hf
        dsimp only at hf
        rw [hY] at hf
        cases hf
      | good data =>
        rw [hY] at hf
        dsimp only at hf
        by_cases hlen : 0 < data.checks.length
        · rw [if_pos hlen, lookupM_jsSet_same] at hf
          injection hf with h1
          injection h1 with h2
          rw [← h2]
        · rw [if_neg hlen, hY] at hf
          injection hf with h1
          injection h1 with h2
          rw [← h2]
          simpa using hlen

/-! ## Status-page overall status (`src/lib/constants.ts`, claim C10) -/

/-- `DayData` (`src/lib/types.ts`). -/
structure DayData where
  date : String
  uptimePercent : ℚ
  avgResponseTime : ℤ
  status : Status
  totalChecks : Nat
deriving DecidableEq, Repr

/-- `ComponentStatus` (`src/lib/types.ts`). -/
structure ComponentStatus where
  id : String
  name : String
  status : Status
  uptimePercent : ℚ
  avgResponseTime : ℤ
  dailyData : List DayData
deriving DecidableEq, Repr

/-- `GroupStatus` (`src/lib/types.ts`). -/
structure GroupStatus where
  id : String
  name : String
  description : String
  uptimePercent : ℚ
  status : Status
  components : List ComponentStatus
deriving DecidableEq, Repr

/-- `getOverallStatus` (`src/lib/constants.ts` lines 230–238): the hero
status is `down` iff some component of some group is down; degraded
components leave it `up` ("Degraded services are still operational"). -/
def getOverallStatus (groups : List GroupStatus) : Status × String :=
  let hasDown := groups.any fun g => g.components.any fun c => c.status == Status.down
  let status := if hasDown then Status.down else Status.up
  let label := if hasDown then "System Outage" else "All Systems Operational"
  (status, label)

/-- C10: the overall status of the public status page is never `degraded`;
it is `down` exactly when some component in some group is down, and
otherwise it is `up` with label "All Systems Operational". -/
theorem getOverallStatus_never_degraded (groups : List GroupStatus) :
    (getOverallStatus groups).1 ≠ Status.degraded ∧
    ((getOverallStatus groups).1 = Status.down ↔
      ∃ g ∈ groups, ∃ c ∈ g.components, c.status = Status.down) ∧
    ((getOverallStatus groups).1 ≠ Status.down →
      (getOverallStatus groups).1 = Status.up ∧
      (getOverallStatus groups).2 = "All Systems Operational") := by
  unfold getOverallStatus
  by_cases h : (groups.any fun g => g.components.any fun c => c.status == Status.down) = true
  · refine ⟨by simp [h], ?_, by simp [h]⟩
    simp only [h, if_true]
    constructor
    · intro _
      simpa [List.any_eq_true, beq_iff_eq] using h
    · intro _
      trivial
  · refine ⟨by simp [h], ?_, by simp [h]⟩
    simp only [h, if_false]
    constructor
    · intro hud
      cases hud
    · intro hex
      exfalso
      apply h
      simpa [List.any_eq_true, beq_iff_eq] using hex

/-- A concrete group whose single component is degraded. -/
def degradedGroup : GroupStatus :=
  { id := "g", name := "Group", description := "",
    uptimePercent := 100, status := Status.degraded,
    components := [{ id := "svc", name := "Service", status := Status.degraded,
                     uptimePercent := 100, avgResponseTime := 0, dailyData := [] }] }

/-- C10 witness: with only a degraded component, the overall status is `up`
with label "All Systems Operational". -/
theorem getOverallStatus_never_degraded_witness :
    (getOverallStatus [degradedGroup]).1 = Status.up ∧
    (getOverallStatus [degradedGroup]).2 = "All Systems Operational" :=
  (getOverallStatus_never_degraded [degradedGroup]).2.2 (by decide)
